import Mathlib

/- Verification of the AppDaemon Kospel integration (src/kospel.py) against its
   natural-language specification.  The Python code is shallowly embedded:
   dictionaries become association lists in insertion order, raised exceptions
   become explicit error values, and the selenium driver becomes an environment
   record describing which page elements are available and which waits succeed. -/

set_option autoImplicit false

/-- Python exception classes raised by the modelled code paths.
    driverError stands for an exception escaping driver.quit inside stop. -/
inductive PyErr
  | connectionError
  | referenceError
  | permissionError
  | driverError
  deriving DecidableEq

/-- Kinds of ValueError that Kospel.process_params can raise: tuple unpacking
    of readout.split with a token count other than 2, and float conversion. -/
inductive RaiseKind
  | unpack
  | floatConv
  deriving DecidableEq

/-- Association list lookup, first match wins (Python dict get). -/
def lookupKey {α : Type} : List (String × α) → String → Option α
  | [], _ => none
  | (k2, v) :: rest, k => if k2 = k then some v else lookupKey rest k

/-- Replace the value stored at a key, appending when the key is new
    (Python dict item assignment; insertion order is preserved). -/
def dictSet {α : Type} : List (String × α) → String → α → List (String × α)
  | [], k, v => [(k, v)]
  | (k2, v2) :: rest, k, v =>
    if k2 = k then (k, v) :: rest else (k2, v2) :: dictSet rest k v

/-- Python dict.update: fold every override pair into the base dict. -/
def dictUpdate (base upd : List (String × String)) : List (String × String) :=
  upd.foldl (fun acc kv => dictSet acc kv.1 kv.2) base

/-- Greedily consume the leading run of decimal digits.  Shared by the
    embeddings of the regex groups in get_rgb and of the float grammar. -/
def takeDigits : List Char → List Char × List Char
  | [] => ([], [])
  | c :: cs =>
    if c.isDigit then (c :: (takeDigits cs).1, (takeDigits cs).2)
    else ([], c :: cs)

/-- Nonempty all-digit character list. -/
def isDigits (cs : List Char) : Bool := !cs.isEmpty && cs.all Char.isDigit

/-- Exponent digits of a float literal, with an optional sign. -/
def expDigits (cs : List Char) : Bool :=
  match cs with
  | '+' :: rest => isDigits rest
  | '-' :: rest => isDigits rest
  | _ => isDigits cs

/-- Optional exponent suffix of a float literal. -/
def expPart (cs : List Char) : Bool :=
  match cs with
  | [] => true
  | 'e' :: rest => expDigits rest
  | 'E' :: rest => expDigits rest
  | _ => false

/-- Unsigned mantissa of a float literal: digits with an optional fractional
    part, or a fractional part alone, then an optional exponent. -/
def mantissa (cs : List Char) : Bool :=
  match (takeDigits cs).2 with
  | '.' :: r2 =>
    (!(takeDigits cs).1.isEmpty || !(takeDigits r2).1.isEmpty) && expPart (takeDigits r2).2
  | _ => !(takeDigits cs).1.isEmpty && expPart (takeDigits cs).2

/-- Mantissa or one of the special CPython float spellings inf and nan. -/
def mantissaOrSpecial (cs : List Char) : Bool :=
  let low := cs.map Char.toLower
  if low = "inf".data || low = "infinity".data || low = "nan".data then true
  else mantissa cs

/-- Whitespace characters stripped by CPython float parsing. -/
def isPySpace (c : Char) : Bool :=
  c = ' ' || c = '\t' || c = '\n' || c = '\r' || c = '\x0b' || c = '\x0c'

/-- Strip leading and trailing whitespace from a character list. -/
def trimChars (cs : List Char) : List Char :=
  ((cs.dropWhile isPySpace).reverse.dropWhile isPySpace).reverse

/-- Whether CPython float(s) succeeds on the string.  Surrounding whitespace
    is stripped and one optional sign is allowed.  Underscore digit
    separators are not modelled and only ASCII digits are modelled; neither
    occurs in the panel readouts this parser receives. -/
def pyFloatValid (s : String) : Bool :=
  match trimChars s.data with
  | '+' :: rest => mantissaOrSpecial rest
  | '-' :: rest => mantissaOrSpecial rest
  | cs => mantissaOrSpecial cs

/-- ASCII fragment of Python str.isnumeric: nonempty and all decimal digits.
    Full Unicode numerics never occur in the panel readouts. -/
def pyIsNumeric (s : String) : Bool := !s.data.isEmpty && s.data.all Char.isDigit

/-- The stripped candidate token value.replace(".", "").replace("-", "")
    from process_params and process_settings: replacing each one-character
    pattern by the empty string removes every occurrence of that
    character, which is exactly this filter. -/
def stripNumToken (s : String) : String :=
  ⟨s.data.filter (fun c => !(c = '.' || c = '-'))⟩

/-- Python str.split(" ") with an explicit separator: split at every single
    occurrence of the separator, keeping empty pieces, and yield one empty
    piece for the empty string. -/
def splitOnSpace : List Char → List (List Char)
  | [] => [[]]
  | c :: cs =>
    if c = ' ' then [] :: splitOnSpace cs
    else
      match splitOnSpace cs with
      | [] => [[c]]
      | t :: ts => (c :: t) :: ts

/-- String wrapper of splitOnSpace. -/
def pySplitSpace (s : String) : List String :=
  (splitOnSpace s.data).map (fun l => ⟨l⟩)

/-- Result of one iteration of the Kospel.process_params loop body for one
    sensor key: skipped with a warning (falsy or non-numeric readout), a
    published value and unit, or a raised ValueError. -/
inductive ParamOutcome
  | missing
  | nonNumeric
  | updated (value unitText : String)
  | raised (k : RaiseKind)
  deriving DecidableEq

/-- One iteration of Kospel.process_params: look up the readout (None when
    the key is absent), treat falsy readouts as missing, split on a single
    space into value and unit, test the stripped token with isnumeric, and
    convert with float.  The split raises when the token count is not 2 and
    float raises when the accepted token is not a valid float literal. -/
def processParamItem (readout : Option String) : ParamOutcome :=
  match readout with
  | none => ParamOutcome.missing
  | some s =>
    if s = "" then ParamOutcome.missing
    else
      match pySplitSpace s with
      | [v, u] =>
        if pyIsNumeric (stripNumToken v) then
          if pyFloatValid v then ParamOutcome.updated v u
          else ParamOutcome.raised RaiseKind.floatConv
        else ParamOutcome.nonNumeric
      | _ => ParamOutcome.raised RaiseKind.unpack

/-- One component group of the get_rgb regex: the greedy, backtracking
    [\d]{1,3} is equivalent here to consuming the whole leading digit run
    and requiring its length in 1..3, because each group is followed by a
    non-digit literal in the pattern, so shorter backtracked matches would
    always leave a digit facing that literal. -/
def parseComp (cs : List Char) : Option (List Char × List Char) :=
  if (takeDigits cs).1.length = 0 ∨ 3 < (takeDigits cs).1.length then none
  else some ((takeDigits cs).1, (takeDigits cs).2)

/-- The literal comma-space separator between the component groups. -/
def parseSep (cs : List Char) : Option (List Char) :=
  match cs with
  | c1 :: c2 :: rest => if c1 = ',' ∧ c2 = ' ' then some rest else none
  | _ => none

/-- The literal closing parenthesis. -/
def parseClose (cs : List Char) : Option (List Char) :=
  match cs with
  | c1 :: rest => if c1 = ')' then some rest else none
  | _ => none

/-- Tail of the get_rgb regex after the literal prefix: three digit groups
    separated by comma-space, a closing parenthesis, then the dollar anchor.
    Python re without MULTILINE lets the dollar match either at the end of
    the string or just before one final newline. -/
def parseRGBTail (cs : List Char) : Option (String × String × String) :=
  (parseComp cs).bind (fun p1 =>
    (parseSep p1.2).bind (fun r2 =>
      (parseComp r2).bind (fun p2 =>
        (parseSep p2.2).bind (fun r4 =>
          (parseComp r4).bind (fun p3 =>
            (parseClose p3.2).bind (fun r6 =>
              if r6 = [] ∨ r6 = ['\n'] then some (⟨p1.1⟩, ⟨p2.1⟩, ⟨p3.1⟩)
              else none))))))

/-- Kospel.get_rgb: re.search of the anchored pattern against the string.
    The caret anchors the match at the start, so search equals match here.
    On success the regex groups are returned: they are the matched digit
    substrings, not integers. -/
def get_rgb (s : String) : Option (String × String × String) :=
  match s.data with
  | c1 :: c2 :: c3 :: c4 :: rest =>
    if c1 = 'r' ∧ c2 = 'g' ∧ c3 = 'b' ∧ c4 = '(' then parseRGBTail rest else none
  | _ => none

/-- The character sequence matched by the full pattern with the dollar at
    the very end of the string: the canonical rgb form of three components. -/
def rgbCanonChars (r g b : String) : List Char :=
  'r' :: 'g' :: 'b' :: '(' ::
    (r.data ++ (',' :: ' ' :: (g.data ++ (',' :: ' ' :: (b.data ++ [')'])))))

namespace StateColors

/-- Status colors used in the UI (values of the str Enum StateColors). -/
def GREEN : String := "rgb(0, 170, 0)"

def RED : String := "rgb(255, 0, 0)"

def WHITE : String := "rgb(233, 233, 233)"

def GRAY : String := "rgb(133, 133, 133)"

def BLACK : String := "rgb(0, 0, 0)"

end StateColors

/-- The if/elif chain of Kospel.process_statuses for one color string:
    the resulting description together with whether the unknown-color
    warning branch was taken. -/
def classifyColor (c : String) : String × Bool :=
  if c = StateColors.GREEN then ("standby", false)
  else if c = StateColors.RED then ("active", false)
  else if c = StateColors.GRAY then ("on", false)
  else if c = StateColors.WHITE then ("off", false)
  else if c = StateColors.BLACK then ("unknown", false)
  else ("unknown", true)

/-- Result of one iteration of the Kospel.process_statuses loop body:
    either the key was skipped because the readout was falsy (logged as not
    found), or a description was published with the extracted rgb attribute
    and a flag recording whether the unknown-color warning was logged. -/
inductive StatusOutcome
  | notFound
  | published (description : String) (rgb : Option (String × String × String))
      (loggedUnknown : Bool)
  deriving DecidableEq

/-- One iteration of Kospel.process_statuses: a missing key or an empty
    (falsy) color string is logged and skipped; any other string goes
    through the classification chain and is published with its rgb tuple. -/
def processStatusItem (readout : Option String) : StatusOutcome :=
  match readout with
  | none => StatusOutcome.notFound
  | some c =>
    if c = "" then StatusOutcome.notFound
    else StatusOutcome.published (classifyColor c).1 (get_rgb c) (classifyColor c).2

/-- Events marking which operations of WebScrap.run executed, in order.
    The read events mark the start of each read or navigation step and
    authDone marks the completed login-and-navigate sub-flow. -/
inductive Event
  | authStart
  | authDone
  | readStatusStart
  | readSettingsStart
  | gotoParamsStart
  | readParamsStart
  | backStart
  | homeConfirmed
  deriving DecidableEq

/-- WebScrap session state: the logged_in flag and whether the selenium
    driver process is still alive. -/
structure Session where
  loggedIn : Bool
  driverAlive : Bool
  deriving DecidableEq

namespace WebScrap

/-- The six status icon keys read from the home page. -/
def STATUS : List String :=
  ["radiator", "tap", "clock", "pump", "error", "suitcase"]

/-- The two setting keys read from the home page. -/
def SETTINGS : List String := ["temp_prog", "temp_zas_nas"]

/-- The nine parameter keys read from the parameters page. -/
def PARAMS : List String :=
  ["params_temp_in", "params_temp_out", "params_temp_factor", "params_temp_room",
   "params_temp_outside", "params_temp_boil", "params_power", "params_preasure",
   "params_flow"]

/-- Behavior of the vendor page and driver during one run call: which
    elements are present, which waits succeed, what the data elements hold.
    For a status icon, statusElem gives none when the element is absent,
    some none when reading the fill CSS property raises
    NoSuchAttributeException, and some (some v) when it yields v. -/
structure DriverEnv where
  path7Present : Bool
  getPageOk : Bool
  loginFieldAppears : Bool
  passFieldAppears : Bool
  zalogujFound : Bool
  zalogujInteractable : Bool
  uiBodyAppears : Bool
  deviceListNonempty : Bool
  startAppears : Bool
  mainPageAppears : Bool
  statusElem : String → Option (Option String)
  settingElem : String → Option String
  paramsIconFound : Bool
  paramsIconInteractable : Bool
  paramsReady : Bool
  paramElem : String → Option String
  backFound : Bool
  backInteractable : Bool
  mainPageAfterBack : Bool
  quitFails : Bool

/-- WebScrap.stop: try driver.quit, finally set logged_in to False.  A quit
    failure propagates after the finally clause has cleared logged_in.
    Quitting a driver that is no longer alive is a no-op that succeeds. -/
def stop (quitFails : Bool) (s : Session) : Session × Option PyErr :=
  let fails := quitFails && s.driverAlive
  ({ loggedIn := false, driverAlive := if fails then s.driverAlive else false },
   if fails then some PyErr.driverError else none)

/-- The stop-then-raise pattern of the required-element and timeout error
    paths: self.stop() runs first; if stop itself raises, that exception
    replaces the one about to be raised. -/
def failStop (quitFails : Bool) (s : Session) (e : PyErr) : PyErr × Session :=
  match stop quitFails s with
  | (s2, some e2) => (e2, s2)
  | (s2, none) => (e, s2)

/-- The loop of WebScrap._read_status over a list of icon keys: every icon
    element is fetched with required=True, so an absent element raises; a
    present element whose fill property read raises NoSuchAttributeException
    yields the black sentinel color. -/
def readStatusLoop (f : String → Option (Option String)) : List String →
    Except Unit (List (String × String))
  | [] => Except.ok []
  | k :: rest =>
    match f k with
    | none => Except.error ()
    | some css =>
      match readStatusLoop f rest with
      | Except.error e => Except.error e
      | Except.ok l => Except.ok ((k, css.getD "rgb(0, 0, 0)") :: l)

/-- WebScrap._read_status including the stop-and-raise on a missing icon
    element. -/
def read_status (env : DriverEnv) (s : Session) :
    Except PyErr (List (String × String)) × Session :=
  match readStatusLoop env.statusElem STATUS with
  | Except.ok l => (Except.ok l, s)
  | Except.error _ =>
    let r := failStop env.quitFails s PyErr.referenceError
    (Except.error r.1, r.2)

/-- WebScrap._read_settings: optional elements, an absent element simply
    omits its key from the returned dict. -/
def read_settings (f : String → Option String) : List (String × String) :=
  SETTINGS.filterMap (fun k => (f k).map (fun t => (k, t)))

/-- WebScrap._read_params: optional elements, an absent element maps its
    key to the placeholder text. -/
def read_params (f : String → Option String) : List (String × String) :=
  PARAMS.map (fun k => (k, (f k).getD "---"))

/-- WebScrap._goto_params_page: the parameters control is required and must
    be interactable (stop and ReferenceError otherwise); the 10 second
    visibility wait for params_temp_in raises ConnectionError on timeout
    without stopping the driver. -/
def goto_params (env : DriverEnv) (s : Session) : Option PyErr × Session :=
  if env.paramsIconFound && env.paramsIconInteractable then
    if env.paramsReady then (none, s)
    else (some PyErr.connectionError, s)
  else
    let r := failStop env.quitFails s PyErr.referenceError
    (some r.1, r.2)

/-- WebScrap._back_to_main: the back control is required and must be
    interactable, and the home marker must reappear; every failure stops
    the driver and raises ReferenceError. -/
def back_to_main (env : DriverEnv) (s : Session) : Option PyErr × Session :=
  if env.backFound && env.backInteractable then
    if env.mainPageAfterBack then (none, s)
    else
      let r := failStop env.quitFails s PyErr.referenceError
      (some r.1, r.2)
  else
    let r := failStop env.quitFails s PyErr.referenceError
    (some r.1, r.2)

/-- First failing step of WebScrap._login_and_navigate, if any: loading the
    login URL raises ConnectionError, and every timed-out wait, missing
    required element, non-interactable control, or empty device list raises
    ReferenceError.  Every one of these paths stops the driver first. -/
def authFailure (env : DriverEnv) : Option PyErr :=
  if env.getPageOk = false then some PyErr.connectionError
  else if env.loginFieldAppears = false then some PyErr.referenceError
  else if env.passFieldAppears = false then some PyErr.referenceError
  else if env.zalogujFound = false then some PyErr.referenceError
  else if env.zalogujInteractable = false then some PyErr.referenceError
  else if env.uiBodyAppears = false then some PyErr.referenceError
  else if env.deviceListNonempty = false then some PyErr.referenceError
  else if env.startAppears = false then some PyErr.referenceError
  else if env.mainPageAppears = false then some PyErr.referenceError
  else none

/-- WebScrap._login_and_navigate: login, device selection, module selection
    and the wait for the home marker; on success logged_in becomes True. -/
def authPhase (env : DriverEnv) (s : Session) :
    Option PyErr × List Event × Session :=
  match authFailure env with
  | some e =>
    let r := failStop env.quitFails s e
    (some r.1, [Event.authStart], r.2)
  | none => (none, [Event.authStart, Event.authDone], { s with loggedIn := true })

/-- Outcome of one WebScrap.run call: the returned triple or the raised
    exception, the executed-step trace, and the final session state. -/
structure RunOut where
  outcome : Except PyErr
    (List (String × String) × List (String × String) × List (String × String))
  trace : List Event
  sess : Session

/-- The read half of WebScrap.run: statuses and settings from the home
    page, navigation to the parameters page, the parameter read, and the
    navigation back to the home page. -/
def readPhase (env : DriverEnv) (s : Session) : RunOut :=
  match read_status env s with
  | (Except.error e, s1) => ⟨Except.error e, [Event.readStatusStart], s1⟩
  | (Except.ok sts, s1) =>
    let settings := read_settings env.settingElem
    match goto_params env s1 with
    | (some e, s2) =>
      ⟨Except.error e,
       [Event.readStatusStart, Event.readSettingsStart, Event.gotoParamsStart], s2⟩
    | (none, s2) =>
      let params := read_params env.paramElem
      match back_to_main env s2 with
      | (some e, s3) =>
        ⟨Except.error e,
         [Event.readStatusStart, Event.readSettingsStart, Event.gotoParamsStart,
          Event.readParamsStart, Event.backStart], s3⟩
      | (none, s3) =>
        ⟨Except.ok (sts, params, settings),
         [Event.readStatusStart, Event.readSettingsStart, Event.gotoParamsStart,
          Event.readParamsStart, Event.backStart, Event.homeConfirmed], s3⟩

/-- WebScrap.run: probe for the home marker path7; when present, mark the
    session logged in and read; when absent, run the full login sub-flow
    first.  The not-logged-in PermissionError guard of the source is kept
    even though both branches establish logged_in. -/
def run (env : DriverEnv) (s0 : Session) : RunOut :=
  if env.path7Present then
    let s1 : Session := { s0 with loggedIn := true }
    if s1.loggedIn = false then ⟨Except.error PyErr.permissionError, [], s1⟩
    else readPhase env s1
  else
    match authPhase env { s0 with loggedIn := false } with
    | (some e, tr, s1) => ⟨Except.error e, tr, s1⟩
    | (none, tr, s1) =>
      if s1.loggedIn = false then ⟨Except.error PyErr.permissionError, tr, s1⟩
      else
        let r := readPhase env s1
        ⟨r.outcome, tr ++ r.trace, r.sess⟩

end WebScrap

/-- One state write published to the Home Assistant state store. -/
structure Published where
  name : String
  state : String
  attrs : List (String × String)
  deriving DecidableEq

/-- Observable side effects of the Kospel addon toward the host and the
    driver, in execution order. -/
inductive HostEvent
  | driverStop
  | sensorWrite (name : String) (state : String)
  | addonWrite (state : String)
  deriving DecidableEq

namespace Kospel

/-- Kospel.SENSORS: measurement sensor definitions with their fixed
    attribute bundles. -/
def SENSORS : List (String × List (String × String)) :=
  [("temp_room",
    [("device_class", "temperature"), ("friendly_name", "Room temperature"),
     ("unit_of_measurement", "°C"), ("icon", "mdi:thermometer")]),
   ("temp_outside",
    [("device_class", "temperature"), ("friendly_name", "Outside temperature"),
     ("unit_of_measurement", "°C"), ("icon", "mdi:thermometer")]),
   ("temp_boil",
    [("device_class", "temperature"), ("friendly_name", "Tap water temperature"),
     ("unit_of_measurement", "°C"), ("icon", "mdi:thermometer")]),
   ("power",
    [("device_class", "power"), ("friendly_name", "Current power"),
     ("unit_of_measurement", "kW"), ("icon", "mdi:lightning-bolt-outline")])]

/-- Kospel.STATUSES: status sensor definitions. -/
def STATUSES : List (String × List (String × String)) :=
  [("radiator",
    [("device_class", "running"), ("friendly_name", "Radiators heating"),
     ("initial_state", "off"), ("icon", "mdi:radiator")]),
   ("tap",
    [("device_class", "running"), ("friendly_name", "Tap water heating"),
     ("initial_state", "off"), ("icon", "mdi:water-pump")]),
   ("pump",
    [("device_class", "running"), ("friendly_name", "Heating pump"),
     ("initial_state", "off"), ("icon", "mdi:pump")]),
   ("error",
    [("device_class", "binary_sensor"), ("friendly_name", "Error"),
     ("initial_state", "off"), ("icon", "mdi:alert-circle")])]

/-- Kospel.SETTINGS: setting sensor definitions. -/
def SETTINGS : List (String × List (String × String)) :=
  [("temp_prog",
    [("device_class", "temperature"),
     ("friendly_name", "Room temperature setting"),
     ("unit_of_measurement", "°C"), ("icon", "mdi:thermometer")]),
   ("temp_zas_nas",
    [("device_class", "temperature"),
     ("friendly_name", "Tap water temperature setting"),
     ("unit_of_measurement", "°C"), ("icon", "mdi:thermometer")])]

/-- The three class-level definition dicts.  They are class attributes in
    the source, so sensor_state mutating an entry in place changes the
    value every later call sees; the embedding threads them as state. -/
structure ClassDicts where
  sensors : List (String × List (String × String))
  statuses : List (String × List (String × String))
  settings : List (String × List (String × String))
  deriving DecidableEq

/-- The definition dicts as written in the source. -/
def initDicts : ClassDicts := ⟨SENSORS, STATUSES, SETTINGS⟩

/-- Kospel.sensor_state.  The source aliases attributes_update to the dict
    stored in the class-level definition table and then calls update on it,
    so a per-call attributes override is written back into the shared
    table; the embedding returns the updated tables alongside the write. -/
def sensor_state (cd : ClassDicts) (sensor value : String)
    (attributes : Option (List (String × String))) : Published × ClassDicts :=
  let sensorName := "sensor.kospel_" ++ sensor
  match lookupKey cd.sensors sensor with
  | some b =>
    match attributes with
    | none => (⟨sensorName, value, b⟩, cd)
    | some o =>
      let nb := dictUpdate b o
      (⟨sensorName, value, nb⟩, { cd with sensors := dictSet cd.sensors sensor nb })
  | none =>
    match lookupKey cd.statuses sensor with
    | some b =>
      match attributes with
      | none => (⟨sensorName, value, b⟩, cd)
      | some o =>
        let nb := dictUpdate b o
        (⟨sensorName, value, nb⟩, { cd with statuses := dictSet cd.statuses sensor nb })
    | none =>
      match lookupKey cd.settings sensor with
      | some b =>
        match attributes with
        | none => (⟨sensorName, value, b⟩, cd)
        | some o =>
          let nb := dictUpdate b o
          (⟨sensorName, value, nb⟩,
           { cd with settings := dictSet cd.settings sensor nb })
      | none =>
        match attributes with
        | none => (⟨sensorName, value, []⟩, cd)
        | some o => (⟨sensorName, value, dictUpdate [] o⟩, cd)

/-- Kospel.reset: one sensor_state write with value Unavailable for every
    key of SENSORS, STATUSES and SETTINGS, in that order. -/
def reset (cd : ClassDicts) : List HostEvent × ClassDicts :=
  let keys := cd.sensors.map Prod.fst ++ cd.statuses.map Prod.fst ++
    cd.settings.map Prod.fst
  keys.foldl
    (fun acc k =>
      let r := sensor_state acc.2 k "Unavailable" none
      (acc.1 ++ [HostEvent.sensorWrite r.1.name r.1.state], r.2))
    ([], cd)

/-- Kospel.addon_state: on the off state the web scraper is stopped and
    every sensor is reset before the addon state write; an exception from
    stop propagates before any reset or write happens. -/
def addon_state (quitFails : Bool) (cd : ClassDicts) (ws : Session)
    (state : String) : Except PyErr (List HostEvent × ClassDicts × Session) :=
  if state = "off" then
    match WebScrap.stop quitFails ws with
    | (_, some e) => Except.error e
    | (ws2, none) =>
      let r := reset cd
      Except.ok (HostEvent.driverStop :: r.1 ++ [HostEvent.addonWrite "off"], r.2, ws2)
  else Except.ok ([HostEvent.addonWrite state], cd, ws)

end Kospel

/-- A driver environment in which every navigation step succeeds and every
    data element is readable; the basis of the concrete scenarios below. -/
def envOK : WebScrap.DriverEnv where
  path7Present := true
  getPageOk := true
  loginFieldAppears := true
  passFieldAppears := true
  zalogujFound := true
  zalogujInteractable := true
  uiBodyAppears := true
  deviceListNonempty := true
  startAppears := true
  mainPageAppears := true
  statusElem := fun _ => some (some "rgb(255, 0, 0)")
  settingElem := fun _ => some "45°"
  paramsIconFound := true
  paramsIconInteractable := true
  paramsReady := true
  paramElem := fun _ => some "21.5 °C"
  backFound := true
  backInteractable := true
  mainPageAfterBack := true
  quitFails := false

/-- Fresh session as built by the WebScrap constructor: driver running,
    not yet logged in. -/
def sInit : Session := ⟨false, true⟩

/-- Scenario for claim C1: the radiator status icon element is absent from
    the home page while every other icon is present and readable. -/
def envNoRadiator : WebScrap.DriverEnv :=
  { envOK with
    statusElem := fun k =>
      if k = "radiator" then none else some (some "rgb(255, 0, 0)") }

/-- Scenario for claim C3: the whole cycle succeeds until the back control
    of the parameters page, which is absent. -/
def envNoBack : WebScrap.DriverEnv := { envOK with backFound := false }


theorem takeDigits_eq (cs : List Char) :
    cs = (takeDigits cs).1 ++ (takeDigits cs).2 ∧
    (takeDigits cs).1.all Char.isDigit = true ∧
    (∀ c t, (takeDigits cs).2 = c :: t → c.isDigit = false) := by
  induction cs with
  | nil => exact ⟨rfl, rfl, by intro c t h; cases h⟩
  | cons a t ih =>
    by_cases ha : a.isDigit = true
    · have h1 : takeDigits (a :: t) = (a :: (takeDigits t).1, (takeDigits t).2) := by
        simp [takeDigits, ha]
      rw [h1]
      refine ⟨?_, ?_, ih.2.2⟩
      · simpa using ih.1
      · simp [ha, ih.2.1]
    · have h1 : takeDigits (a :: t) = ([], a :: t) := by
        simp [takeDigits, ha]
      rw [h1]
      refine ⟨rfl, rfl, ?_⟩
      intro c t2 h
      cases h
      simpa using ha

theorem takeDigits_append (d rest : List Char) (hd : d.all Char.isDigit = true)
    (hr : rest = [] ∨ ∃ c t, rest = c :: t ∧ c.isDigit = false) :
    takeDigits (d ++ rest) = (d, rest) := by
  induction d with
  | nil =>
    rcases hr with rfl | ⟨c, t, rfl, hc⟩
    · rfl
    · simp [takeDigits, hc]
  | cons a t ih =>
    simp only [List.all_cons, Bool.and_eq_true] at hd
    simp [takeDigits, hd.1, ih hd.2]

theorem parseComp_inv {cs d r : List Char} (h : parseComp cs = some (d, r)) :
    cs = d ++ r ∧ d.all Char.isDigit = true ∧ d ≠ [] ∧ d.length ≤ 3 ∧
    (∀ c t, r = c :: t → c.isDigit = false) := by
  have he := takeDigits_eq cs
  unfold parseComp at h
  by_cases hc : (takeDigits cs).1.length = 0 ∨ 3 < (takeDigits cs).1.length
  · rw [if_pos hc] at h; cases h
  · rw [if_neg hc] at h
    push_neg at hc
    rw [Option.some.injEq, Prod.mk.injEq] at h
    obtain ⟨h1, h2⟩ := h
    subst h1
    subst h2
    refine ⟨he.1, he.2.1, ?_, by omega, he.2.2⟩
    intro hnil
    rw [hnil] at hc
    simp at hc

theorem parseComp_canon (d rest : List Char) (hd : d.all Char.isDigit = true)
    (hne : d ≠ []) (hlen : d.length ≤ 3)
    (hr : rest = [] ∨ ∃ c t, rest = c :: t ∧ c.isDigit = false) :
    takeDigits (d ++ rest) = (d, rest) ∧ parseComp (d ++ rest) = some (d, rest) := by
  have ht := takeDigits_append d rest hd hr
  have hcond : ¬(d.length = 0 ∨ 3 < d.length) := by
    rintro (h | h)
    · exact hne (List.length_eq_zero.mp h)
    · omega
  refine ⟨ht, ?_⟩
  unfold parseComp
  rw [ht]
  simpa using hcond

theorem parseSep_inv {cs r : List Char} (h : parseSep cs = some r) :
    cs = ',' :: ' ' :: r := by
  rcases cs with _ | ⟨a, _ | ⟨b, t⟩⟩
  · cases h
  · cases h
  · simp only [parseSep] at h
    by_cases hab : a = ',' ∧ b = ' '
    · obtain ⟨rfl, rfl⟩ := hab
      rw [if_pos ⟨rfl, rfl⟩, Option.some.injEq] at h
      rw [h]
    · rw [if_neg hab] at h; cases h

theorem parseClose_inv {cs r : List Char} (h : parseClose cs = some r) :
    cs = ')' :: r := by
  rcases cs with _ | ⟨a, t⟩
  · cases h
  · simp only [parseClose] at h
    by_cases ha : a = ')'
    · subst ha
      rw [if_pos rfl, Option.some.injEq] at h
      rw [h]
    · rw [if_neg ha] at h; cases h

theorem isDigits_parts {l : List Char} (h : isDigits l = true) :
    l ≠ [] ∧ l.all Char.isDigit = true := by
  unfold isDigits at h
  rw [Bool.and_eq_true] at h
  refine ⟨?_, h.2⟩
  intro he
  subst he
  simp at h

theorem isDigits_of_parts {l : List Char} (hne : l ≠ [])
    (hall : l.all Char.isDigit = true) : isDigits l = true := by
  unfold isDigits
  rw [Bool.and_eq_true]
  refine ⟨?_, hall⟩
  rcases l with _ | ⟨a, t⟩
  · exact absurd rfl hne
  · rfl

theorem get_rgb_characterization (s r g b : String) :
    get_rgb s = some (r, g, b) ↔
      (isDigits r.data = true ∧ r.data.length ≤ 3 ∧
       isDigits g.data = true ∧ g.data.length ≤ 3 ∧
       isDigits b.data = true ∧ b.data.length ≤ 3 ∧
       (s.data = rgbCanonChars r g b ∨ s.data = rgbCanonChars r g b ++ ['\n'])) := by
  constructor
  · intro h
    rcases hs : s.data with _ | ⟨c1, _ | ⟨c2, _ | ⟨c3, _ | ⟨c4, rest⟩⟩⟩⟩
    · rw [show get_rgb s = none from by unfold get_rgb; rw [hs]] at h; cases h
    · rw [show get_rgb s = none from by unfold get_rgb; rw [hs]] at h; cases h
    · rw [show get_rgb s = none from by unfold get_rgb; rw [hs]] at h; cases h
    · rw [show get_rgb s = none from by unfold get_rgb; rw [hs]] at h; cases h
    · have h0 : get_rgb s =
          if c1 = 'r' ∧ c2 = 'g' ∧ c3 = 'b' ∧ c4 = '(' then parseRGBTail rest
          else none := by
        unfold get_rgb; rw [hs]
      rw [h0] at h
      by_cases hch : c1 = 'r' ∧ c2 = 'g' ∧ c3 = 'b' ∧ c4 = '('
      · obtain ⟨rfl, rfl, rfl, rfl⟩ := hch
        rw [if_pos ⟨rfl, rfl, rfl, rfl⟩] at h
        unfold parseRGBTail at h
        rcases hp1 : parseComp rest with _ | ⟨d1, r1⟩ <;> rw [hp1] at h
        · cases h
        simp only [Option.some_bind] at h
        rcases hs1 : parseSep r1 with _ | r2 <;> rw [hs1] at h
        · cases h
        simp only [Option.some_bind] at h
        rcases hp2 : parseComp r2 with _ | ⟨d2, r3⟩ <;> rw [hp2] at h
        · cases h
        simp only [Option.some_bind] at h
        rcases hs2 : parseSep r3 with _ | r4 <;> rw [hs2] at h
        · cases h
        simp only [Option.some_bind] at h
        rcases hp3 : parseComp r4 with _ | ⟨d3, r5⟩ <;> rw [hp3] at h
        · cases h
        simp only [Option.some_bind] at h
        rcases hc1 : parseClose r5 with _ | r6 <;> rw [hc1] at h
        · cases h
        simp only [Option.some_bind] at h
        by_cases hend : r6 = [] ∨ r6 = ['\n']
        · rw [if_pos hend, Option.some.injEq, Prod.mk.injEq, Prod.mk.injEq] at h
          obtain ⟨hr, hg, hb⟩ := h
          obtain ⟨e1, a1, n1, l1, f1⟩ := parseComp_inv hp1
          obtain ⟨e2, a2, n2, l2, f2⟩ := parseComp_inv hp2
          obtain ⟨e3, a3, n3, l3, f3⟩ := parseComp_inv hp3
          have hq1 := parseSep_inv hs1
          have hq2 := parseSep_inv hs2
          have hq3 := parseClose_inv hc1
          have hrd : r.data = d1 := by rw [← hr]
          have hgd : g.data = d2 := by rw [← hg]
          have hbd : b.data = d3 := by rw [← hb]
          refine ⟨?_, ?_, ?_, ?_, ?_, ?_, ?_⟩
          · rw [hrd]; exact isDigits_of_parts n1 a1
          · rw [hrd]; exact l1
          · rw [hgd]; exact isDigits_of_parts n2 a2
          · rw [hgd]; exact l2
          · rw [hbd]; exact isDigits_of_parts n3 a3
          · rw [hbd]; exact l3
          · rw [e1, hq1, e2, hq2, e3, hq3]
            unfold rgbCanonChars
            rw [hrd, hgd, hbd]
            rcases hend with rfl | rfl
            · left; rfl
            · right; simp
        · rw [if_neg hend] at h; cases h
      · rw [if_neg hch] at h; cases h
  · rintro ⟨hr1, hr2, hg1, hg2, hb1, hb2, hcase⟩
    obtain ⟨rne, rall⟩ := isDigits_parts hr1
    obtain ⟨gne, gall⟩ := isDigits_parts hg1
    obtain ⟨bne, ball⟩ := isDigits_parts hb1
    have hcomma : (',' : Char).isDigit = false := by decide
    have hclose : (')' : Char).isDigit = false := by decide
    have hstep : ∀ tail2 : List Char, (tail2 = [] ∨ tail2 = ['\n']) →
        parseRGBTail (r.data ++ (',' :: ' ' :: (g.data ++
          (',' :: ' ' :: (b.data ++ (')' :: tail2)))))) = some (r, g, b) := by
      intro tail2 htail
      unfold parseRGBTail
      rw [(parseComp_canon r.data _ rall rne hr2 (Or.inr ⟨',', _, rfl, hcomma⟩)).2]
      simp only [Option.some_bind]
      rw [show parseSep (',' :: ' ' :: (g.data ++ (',' :: ' ' :: (b.data ++
        (')' :: tail2))))) = some (g.data ++ (',' :: ' ' :: (b.data ++ (')' :: tail2))))
        from by simp [parseSep]]
      simp only [Option.some_bind]
      rw [(parseComp_canon g.data _ gall gne hg2 (Or.inr ⟨',', _, rfl, hcomma⟩)).2]
      simp only [Option.some_bind]
      rw [show parseSep (',' :: ' ' :: (b.data ++ (')' :: tail2))) =
        some (b.data ++ (')' :: tail2)) from by simp [parseSep]]
      simp only [Option.some_bind]
      rw [(parseComp_canon b.data _ ball bne hb2 (Or.inr ⟨')', _, rfl, hclose⟩)).2]
      simp only [Option.some_bind]
      rw [show parseClose (')' :: tail2) = some tail2 from by simp [parseClose]]
      simp only [Option.some_bind]
      rw [if_pos htail]
    rcases hcase with hd | hd
    · have h0 : get_rgb s = parseRGBTail (r.data ++ (',' :: ' ' :: (g.data ++
          (',' :: ' ' :: (b.data ++ (')' :: ([] : List Char))))))) := by
        unfold get_rgb
        rw [hd]
        unfold rgbCanonChars
        rfl
      rw [h0, hstep [] (Or.inl rfl)]
    · have h0 : get_rgb s = parseRGBTail (r.data ++ (',' :: ' ' :: (g.data ++
          (',' :: ' ' :: (b.data ++ (')' :: (['\n'] : List Char))))))) := by
        unfold get_rgb
        rw [hd]
        unfold rgbCanonChars
        simp [List.append_assoc]
      rw [h0, hstep ['\n'] (Or.inr rfl)]

/-- Claim C4 counterexample: the claim says any string deviating from the
    canonical rgb(r, g, b) form yields None, but a single trailing newline
    is tolerated by the dollar anchor of re.search, and the returned groups
    are digit strings rather than integers. -/
theorem get_rgb_trailing_newline_accepted :
    get_rgb "rgb(0, 170, 0)\n" = some ("0", "170", "0") ∧
    ("rgb(0, 170, 0)\n" : String).data ≠ rgbCanonChars "0" "170" "0" := by
  exact ⟨rfl, by decide⟩

/-- Claim C4 (amended): get_rgb returns the triple of matched digit
    substrings exactly on strings whose characters are the canonical
    rgb(r, g, b) rendering of three 1-to-3 digit components, optionally
    followed by one final newline; every other string yields None. -/
theorem get_rgb_spec (s r g b : String) :
    get_rgb s = some (r, g, b) ↔
      (isDigits r.data = true ∧ r.data.length ≤ 3 ∧
       isDigits g.data = true ∧ g.data.length ≤ 3 ∧
       isDigits b.data = true ∧ b.data.length ≤ 3 ∧
       (s.data = rgbCanonChars r g b ∨ s.data = rgbCanonChars r g b ++ ['\n'])) :=
  get_rgb_characterization s r g b

/-- Witness for the amended claim C4, at the two inputs named by the spec. -/
theorem get_rgb_spec_witness :
    get_rgb "rgb(0, 170, 0)" = some ("0", "170", "0") ∧
    get_rgb "not-a-color" = none := by
  constructor
  · exact (get_rgb_spec "rgb(0, 170, 0)" "0" "170" "0").mpr
      ⟨by decide, by decide, by decide, by decide, by decide, by decide,
       Or.inl (by decide)⟩
  · rfl

/-- Claim C2 counterexample: the value token --.5 passes the strip-and-digit
    acceptance rule, yet the float conversion then raises, and a readout
    without exactly one space raises at tuple unpacking; the parser is not
    exception-free. -/
theorem processParam_accepted_token_raises :
    processParamItem (some "--.5 kW") = ParamOutcome.raised RaiseKind.floatConv ∧
    pyIsNumeric (stripNumToken "--.5") = true ∧
    processParamItem (some "21.5") = ParamOutcome.raised RaiseKind.unpack := by
  exact ⟨rfl, rfl, rfl⟩

/-- Claim C2 (amended): absent or empty readouts degrade to the logged
    missing result; a readout splitting on space into exactly two tokens is
    accepted iff the value token, stripped of dots and dashes, is nonempty
    and all digits, and an accepted token yields the value-unit pair when
    it is a valid float literal but raises at float conversion otherwise;
    a readout with any other space-token count raises at unpacking. -/
theorem processParam_parse_rule :
    processParamItem none = ParamOutcome.missing ∧
    processParamItem (some "") = ParamOutcome.missing ∧
    (∀ s : String, s ≠ "" → (pySplitSpace s).length ≠ 2 →
      processParamItem (some s) = ParamOutcome.raised RaiseKind.unpack) ∧
    (∀ s v u : String, pySplitSpace s = [v, u] →
      processParamItem (some s) =
        (if pyIsNumeric (stripNumToken v) then
          (if pyFloatValid v then ParamOutcome.updated v u
           else ParamOutcome.raised RaiseKind.floatConv)
         else ParamOutcome.nonNumeric)) := by
  refine ⟨rfl, rfl, ?_, ?_⟩
  · intro s h0 h2
    rcases hsp : pySplitSpace s with _ | ⟨a, _ | ⟨b, _ | ⟨c, t3⟩⟩⟩
    · simp [processParamItem, h0, hsp]
    · simp [processParamItem, h0, hsp]
    · exfalso; rw [hsp] at h2; simp at h2
    · simp [processParamItem, h0, hsp]
  · intro s v u h
    have hne : s ≠ "" := by
      intro he
      subst he
      simp [pySplitSpace, splitOnSpace] at h
    simp [processParamItem, hne, h]

/-- Witness for the amended claim C2 on a well-formed readout. -/
theorem processParam_parse_rule_witness :
    processParamItem (some "21.5 °C") = ParamOutcome.updated "21.5" "°C" := by
  have h := processParam_parse_rule.2.2.2 "21.5 °C" "21.5" "°C" (by rfl)
  rw [h]
  rfl

/-- Claim C5 counterexample: an empty color string is falsy, so the loop
    body logs it as not found and skips the key instead of classifying it
    as the unknown category. -/
theorem processStatus_empty_not_unknown :
    processStatusItem (some "") = StatusOutcome.notFound ∧
    StatusOutcome.notFound ≠ StatusOutcome.published "unknown" (get_rgb "") true := by
  exact ⟨rfl, by decide⟩

/-- Claim C5 (amended): the classification chain maps the five canonical
    colors to standby, active, on, off and unknown with no warning, and
    every other nonempty color string to unknown with the warning logged;
    an absent or empty readout is instead logged as not found and skipped. -/
theorem classifyStatus_canonical_and_default (c : String) :
    processStatusItem (some StateColors.GREEN) =
      StatusOutcome.published "standby" (some ("0", "170", "0")) false ∧
    processStatusItem (some StateColors.RED) =
      StatusOutcome.published "active" (some ("255", "0", "0")) false ∧
    processStatusItem (some StateColors.GRAY) =
      StatusOutcome.published "on" (some ("133", "133", "133")) false ∧
    processStatusItem (some StateColors.WHITE) =
      StatusOutcome.published "off" (some ("233", "233", "233")) false ∧
    processStatusItem (some StateColors.BLACK) =
      StatusOutcome.published "unknown" (some ("0", "0", "0")) false ∧
    (c ≠ "" → c ≠ StateColors.GREEN → c ≠ StateColors.RED → c ≠ StateColors.GRAY →
      c ≠ StateColors.WHITE → c ≠ StateColors.BLACK →
      processStatusItem (some c) = StatusOutcome.published "unknown" (get_rgb c) true) ∧
    processStatusItem none = StatusOutcome.notFound ∧
    processStatusItem (some "") = StatusOutcome.notFound := by
  refine ⟨rfl, rfl, rfl, rfl, rfl, ?_, rfl, rfl⟩
  intro h0 h1 h2 h3 h4 h5
  simp [processStatusItem, classifyColor, h0, h1, h2, h3, h4, h5]

/-- Witness for the amended claim C5 on a non-canonical color string. -/
theorem classifyStatus_canonical_and_default_witness :
    processStatusItem (some "teal") = StatusOutcome.published "unknown" (get_rgb "teal") true :=
  (classifyStatus_canonical_and_default "teal").2.2.2.2.2.1
    (by decide) (by decide) (by decide) (by decide) (by decide) (by decide)

/-- Claim C10: sensor_state with a per-call attributes override writes the
    merged bundle back into the shared class-level definition dict, so a
    later call without an override publishes the leftover override value
    (kW) instead of the original fixed bundle value (the degree unit). -/
theorem sensor_state_mutates_shared_defs :
    (Kospel.sensor_state
        (Kospel.sensor_state Kospel.initDicts "temp_room" "21.5"
          (some [("unit_of_measurement", "kW")])).2
        "temp_room" "20" none).1.attrs =
      [("device_class", "temperature"), ("friendly_name", "Room temperature"),
       ("unit_of_measurement", "kW"), ("icon", "mdi:thermometer")] ∧
    lookupKey ((Kospel.sensor_state Kospel.initDicts "temp_room" "20" none).1.attrs)
      "unit_of_measurement" = some "°C" ∧
    ("kW" : String) ≠ "°C" := by
  exact ⟨rfl, rfl, by decide⟩

theorem readStatusLoop_ok (f : String → Option (Option String)) :
    ∀ l : List String, (∀ k, k ∈ l → (f k).isSome) →
      WebScrap.readStatusLoop f l =
        Except.ok (l.map (fun k => (k, ((f k).getD none).getD "rgb(0, 0, 0)"))) := by
  intro l
  induction l with
  | nil => intro h; rfl
  | cons a t ih =>
    intro h
    have ha := h a (List.mem_cons_self a t)
    rcases hfa : f a with _ | css
    · rw [hfa] at ha; simp at ha
    · have ht := ih (fun k hk => h k (List.mem_cons_of_mem a hk))
      simp [WebScrap.readStatusLoop, hfa, ht]

theorem readStatusLoop_error (f : String → Option (Option String)) :
    ∀ l : List String, (∃ k, k ∈ l ∧ f k = none) →
      WebScrap.readStatusLoop f l = Except.error () := by
  intro l
  induction l with
  | nil => rintro ⟨k, hk, _⟩; cases hk
  | cons a t ih =>
    rintro ⟨k, hk, hfk⟩
    rcases hfa : f a with _ | css
    · simp [WebScrap.readStatusLoop, hfa]
    · have hk2 : k ∈ t := by
        rcases List.mem_cons.mp hk with h1 | h1
        · subst h1; rw [hfa] at hfk; cases hfk
        · exact h1
      have ht := ih ⟨k, hk2, hfk⟩
      simp [WebScrap.readStatusLoop, hfa, ht]

/-- Claim C1 counterexample: with the radiator icon element absent and all
    other icons readable, the status read stops the driver and raises
    ReferenceError, aborting the whole cycle, instead of resolving the key
    to the black sentinel. -/
theorem readStatus_missing_element_aborts :
    (WebScrap.read_status envNoRadiator sInit).1 = Except.error PyErr.referenceError ∧
    (WebScrap.read_status envNoRadiator sInit).2 = ⟨false, false⟩ ∧
    (WebScrap.run envNoRadiator sInit).outcome = Except.error PyErr.referenceError := by
  exact ⟨rfl, rfl, rfl⟩

/-- Claim C1 (amended): for each status key only the CSS fill property is
    optional: when every icon element is present, each key resolves to the
    read color, or to the black sentinel when the property read raises,
    independently of the other keys; but when any icon element is absent
    the loop raises instead of degrading that key. -/
theorem readStatus_css_soft_element_hard (f : String → Option (Option String)) :
    ((∀ k, k ∈ WebScrap.STATUS → (f k).isSome) →
      WebScrap.readStatusLoop f WebScrap.STATUS =
        Except.ok (WebScrap.STATUS.map
          (fun k => (k, ((f k).getD none).getD "rgb(0, 0, 0)")))) ∧
    ((∃ k, k ∈ WebScrap.STATUS ∧ f k = none) →
      WebScrap.readStatusLoop f WebScrap.STATUS = Except.error ()) :=
  ⟨readStatusLoop_ok f WebScrap.STATUS, readStatusLoop_error f WebScrap.STATUS⟩

/-- Witness for the amended claim C1: a missing fill property on the pump
    icon degrades to the black sentinel while the other keys keep their
    colors, and a missing element makes the loop fail. -/
theorem readStatus_css_soft_element_hard_witness :
    WebScrap.readStatusLoop
      (fun k => if k = "pump" then some none else some (some "rgb(0, 170, 0)"))
      WebScrap.STATUS =
      Except.ok [("radiator", "rgb(0, 170, 0)"), ("tap", "rgb(0, 170, 0)"),
        ("clock", "rgb(0, 170, 0)"), ("pump", "rgb(0, 0, 0)"),
        ("error", "rgb(0, 170, 0)"), ("suitcase", "rgb(0, 170, 0)")] ∧
    WebScrap.readStatusLoop (fun _ => none) WebScrap.STATUS = Except.error () := by
  constructor
  · have h := (readStatus_css_soft_element_hard
        (fun k => if k = "pump" then some none else some (some "rgb(0, 170, 0)"))).1 ?_
    · rw [h]; rfl
    · intro k hk
      fin_cases hk <;> simp
  · exact (readStatus_css_soft_element_hard (fun _ => none)).2
      ⟨"radiator", by simp [WebScrap.STATUS], rfl⟩

theorem lookupKey_map_self {α : Type} (g : String → α) :
    ∀ (l : List String) (k : String), k ∈ l →
      lookupKey (l.map (fun k2 => (k2, g k2))) k = some (g k) := by
  intro l
  induction l with
  | nil => intro k hk; cases hk
  | cons a t ih =>
    intro k hk
    rw [List.map_cons]
    by_cases h : a = k
    · subst h; simp [lookupKey]
    · have hk2 : k ∈ t := by
        rcases List.mem_cons.mp hk with h1 | h1
        · exact absurd h1.symm h
        · exact h1
      simp [lookupKey, h, ih k hk2]

/-- Claim C7: the parameter read returns an entry for each of the 9 keys in
    order; a key whose element is found maps to its raw text and a key
    whose element is absent maps to the placeholder, each key depending
    only on its own element. -/
theorem read_params_total_and_independent (f : String → Option String) :
    (WebScrap.read_params f).map Prod.fst = WebScrap.PARAMS ∧
    (∀ k t, k ∈ WebScrap.PARAMS → f k = some t →
      lookupKey (WebScrap.read_params f) k = some t) ∧
    (∀ k, k ∈ WebScrap.PARAMS → f k = none →
      lookupKey (WebScrap.read_params f) k = some "---") := by
  refine ⟨?_, ?_, ?_⟩
  · rw [WebScrap.read_params, List.map_map]
    have hcomp : (Prod.fst ∘ fun k => (k, (f k).getD "---")) = fun k : String => k := by
      funext k
      rfl
    rw [hcomp]
    simp
  · intro k t hk hf
    have h := lookupKey_map_self (fun k2 => (f k2).getD "---") WebScrap.PARAMS k hk
    rw [WebScrap.read_params, h]
    simp [hf]
  · intro k hk hf
    have h := lookupKey_map_self (fun k2 => (f k2).getD "---") WebScrap.PARAMS k hk
    rw [WebScrap.read_params, h]
    simp [hf]

/-- Witness for claim C7: one element present, the rest absent. -/
theorem read_params_total_and_independent_witness :
    lookupKey (WebScrap.read_params
      (fun k => if k = "params_power" then some "5 kW" else none)) "params_power" =
      some "5 kW" ∧
    lookupKey (WebScrap.read_params
      (fun k => if k = "params_power" then some "5 kW" else none)) "params_flow" =
      some "---" := by
  constructor
  · exact (read_params_total_and_independent _).2.1 "params_power" "5 kW"
      (by simp [WebScrap.PARAMS]) (by simp)
  · exact (read_params_total_and_independent _).2.2 "params_flow"
      (by simp [WebScrap.PARAMS]) (by simp)

/-- Claim C9: every stop call clears logged_in, even when quit raises;
    stopping a session whose driver is already gone succeeds without any
    further state change, so stop is idempotent and reentrant-safe. -/
theorem stop_idempotent_safe (q : Bool) (s : Session) :
    (WebScrap.stop q s).1.loggedIn = false ∧
    (s.driverAlive = false → WebScrap.stop q s = (⟨false, false⟩, none)) ∧
    ((WebScrap.stop q s).2 = none →
      WebScrap.stop q ((WebScrap.stop q s).1) = ((WebScrap.stop q s).1, none)) := by
  rcases s with ⟨li, da⟩
  cases q <;> cases li <;> cases da <;> decide

/-- Witness for claim C9: stopping an already-stopped session. -/
theorem stop_idempotent_safe_witness :
    (WebScrap.stop true ⟨true, false⟩).1.loggedIn = false ∧
    WebScrap.stop true ⟨true, false⟩ = (⟨false, false⟩, none) :=
  ⟨(stop_idempotent_safe true ⟨true, false⟩).1,
   (stop_idempotent_safe true ⟨true, false⟩).2.1 rfl⟩

theorem sensor_state_none_frame (cd : Kospel.ClassDicts) (k v : String) :
    (Kospel.sensor_state cd k v none).2 = cd ∧
    (Kospel.sensor_state cd k v none).1.name = "sensor.kospel_" ++ k ∧
    (Kospel.sensor_state cd k v none).1.state = v := by
  cases h1 : lookupKey cd.sensors k <;> cases h2 : lookupKey cd.statuses k <;>
    cases h3 : lookupKey cd.settings k <;>
      simp [Kospel.sensor_state, h1, h2, h3]

theorem reset_fold (ks : List String) :
    ∀ (acc : List HostEvent) (cd : Kospel.ClassDicts),
      ks.foldl
        (fun acc2 k =>
          let r := Kospel.sensor_state acc2.2 k "Unavailable" none
          (acc2.1 ++ [HostEvent.sensorWrite r.1.name r.1.state], r.2))
        (acc, cd) =
      (acc ++ ks.map
        (fun k => HostEvent.sensorWrite ("sensor.kospel_" ++ k) "Unavailable"), cd) := by
  induction ks with
  | nil => intro acc cd; simp
  | cons a t ih =>
    intro acc cd
    have hf := sensor_state_none_frame cd a "Unavailable"
    rw [List.foldl_cons, List.map_cons]
    simp only [hf.1, hf.2.1, hf.2.2]
    rw [ih]
    simp

theorem reset_spec (cd : Kospel.ClassDicts) :
    Kospel.reset cd =
      ((cd.sensors.map Prod.fst ++ cd.statuses.map Prod.fst ++
        cd.settings.map Prod.fst).map
        (fun k => HostEvent.sensorWrite ("sensor.kospel_" ++ k) "Unavailable"), cd) := by
  unfold Kospel.reset
  rw [reset_fold]
  simp

/-- Claim C8: every completed addon-state write of off is preceded by the
    driver stop and by one Unavailable write for every key of SENSORS,
    STATUSES and SETTINGS, in definition order, before the addon write. -/
theorem addon_state_off_resets_all (q : Bool) (cd : Kospel.ClassDicts)
    (ws : Session) (ev : List HostEvent) (cd2 : Kospel.ClassDicts) (ws2 : Session)
    (h : Kospel.addon_state q cd ws "off" = Except.ok (ev, cd2, ws2)) :
    ev = HostEvent.driverStop ::
      ((cd.sensors.map Prod.fst ++ cd.statuses.map Prod.fst ++
        cd.settings.map Prod.fst).map
        (fun k => HostEvent.sensorWrite ("sensor.kospel_" ++ k) "Unavailable")) ++
      [HostEvent.addonWrite "off"] ∧
    ws2 = ⟨false, false⟩ := by
  by_cases hq : (q && ws.driverAlive) = true
  · exfalso
    rw [show Kospel.addon_state q cd ws "off" = Except.error PyErr.driverError from by
      simp [Kospel.addon_state, WebScrap.stop, hq]] at h
    cases h
  · rw [show Kospel.addon_state q cd ws "off" =
        Except.ok (HostEvent.driverStop :: (Kospel.reset cd).1 ++
          [HostEvent.addonWrite "off"], (Kospel.reset cd).2, ⟨false, false⟩) from by
      simp [Kospel.addon_state, WebScrap.stop, hq]] at h
    rw [Except.ok.injEq, Prod.mk.injEq, Prod.mk.injEq] at h
    refine ⟨?_, h.2.2.symm⟩
    rw [← h.1, reset_spec]

/-- Witness for claim C8 on the class dicts of the source with a healthy
    driver. -/
theorem addon_state_off_resets_all_witness :
    HostEvent.driverStop ::
      ((Kospel.initDicts.sensors.map Prod.fst ++
        Kospel.initDicts.statuses.map Prod.fst ++
        Kospel.initDicts.settings.map Prod.fst).map
        (fun k => HostEvent.sensorWrite ("sensor.kospel_" ++ k) "Unavailable")) ++
      [HostEvent.addonWrite "off"] =
      HostEvent.driverStop ::
      ((Kospel.initDicts.sensors.map Prod.fst ++
        Kospel.initDicts.statuses.map Prod.fst ++
        Kospel.initDicts.settings.map Prod.fst).map
        (fun k => HostEvent.sensorWrite ("sensor.kospel_" ++ k) "Unavailable")) ++
      [HostEvent.addonWrite "off"] ∧
    (⟨false, false⟩ : Session) = ⟨false, false⟩ :=
  addon_state_off_resets_all false Kospel.initDicts ⟨false, true⟩ _ Kospel.initDicts
    ⟨false, false⟩ (by rfl)

theorem failStop_spec (q : Bool) (s : Session) (e : PyErr) :
    (WebScrap.failStop q s e).2.loggedIn = false := by
  by_cases h : (q && s.driverAlive) = true <;>
    simp [WebScrap.failStop, WebScrap.stop, h]

theorem authPhase_cases (env : WebScrap.DriverEnv) (s : Session) :
    (∃ e s2, WebScrap.authPhase env s = (some e, [Event.authStart], s2) ∧
      s2.loggedIn = false) ∨
    WebScrap.authPhase env s =
      (none, [Event.authStart, Event.authDone], { s with loggedIn := true }) := by
  rcases h : WebScrap.authFailure env with _ | e
  · right
    simp [WebScrap.authPhase, h]
  · left
    exact ⟨(WebScrap.failStop env.quitFails s e).1,
      (WebScrap.failStop env.quitFails s e).2,
      by simp [WebScrap.authPhase, h], failStop_spec env.quitFails s e⟩

theorem readPhase_shapes (env : WebScrap.DriverEnv) (s : Session) :
    ((WebScrap.readPhase env s).trace = [Event.readStatusStart] ∧
      ∃ e, (WebScrap.readPhase env s).outcome = Except.error e) ∨
    ((WebScrap.readPhase env s).trace =
        [Event.readStatusStart, Event.readSettingsStart, Event.gotoParamsStart] ∧
      ∃ e, (WebScrap.readPhase env s).outcome = Except.error e) ∨
    ((WebScrap.readPhase env s).trace =
        [Event.readStatusStart, Event.readSettingsStart, Event.gotoParamsStart,
         Event.readParamsStart, Event.backStart] ∧
      ∃ e, (WebScrap.readPhase env s).outcome = Except.error e) ∨
    ((WebScrap.readPhase env s).trace =
        [Event.readStatusStart, Event.readSettingsStart, Event.gotoParamsStart,
         Event.readParamsStart, Event.backStart, Event.homeConfirmed] ∧
      ∃ v, (WebScrap.readPhase env s).outcome = Except.ok v) := by
  unfold WebScrap.readPhase
  split
  · left
    exact ⟨rfl, _, rfl⟩
  · split
    · right; left
      exact ⟨rfl, _, rfl⟩
    · split
      · right; right; left
        exact ⟨rfl, _, rfl⟩
      · right; right; right
        exact ⟨rfl, _, rfl⟩

theorem readPhase_head (env : WebScrap.DriverEnv) (s : Session) :
    ∃ tl, (WebScrap.readPhase env s).trace = Event.readStatusStart :: tl := by
  rcases readPhase_shapes env s with ⟨ht, _⟩ | ⟨ht, _⟩ | ⟨ht, _⟩ | ⟨ht, _⟩ <;>
    exact ⟨_, ht⟩

theorem readPhase_no_auth (env : WebScrap.DriverEnv) (s : Session) :
    Event.authStart ∉ (WebScrap.readPhase env s).trace := by
  rcases readPhase_shapes env s with ⟨ht, _⟩ | ⟨ht, _⟩ | ⟨ht, _⟩ | ⟨ht, _⟩ <;>
    rw [ht] <;> decide

theorem readPhase_ok_home (env : WebScrap.DriverEnv) (s : Session) (v :
    List (String × String) × List (String × String) × List (String × String))
    (h : (WebScrap.readPhase env s).outcome = Except.ok v) :
    Event.homeConfirmed ∈ (WebScrap.readPhase env s).trace := by
  rcases readPhase_shapes env s with ⟨ht, e, he⟩ | ⟨ht, e, he⟩ | ⟨ht, e, he⟩ | ⟨ht, _⟩
  · rw [he] at h; simp at h
  · rw [he] at h; simp at h
  · rw [he] at h; simp at h
  · rw [ht]; decide

theorem readPhase_back_fail (env : WebScrap.DriverEnv) (s : Session)
    (hb : (env.backFound && env.backInteractable) = false) :
    Event.backStart ∈ (WebScrap.readPhase env s).trace →
      (∃ e, (WebScrap.readPhase env s).outcome = Except.error e) ∧
      (WebScrap.readPhase env s).sess.loggedIn = false := by
  have hbm : ∀ s2 : Session, WebScrap.back_to_main env s2 =
      (some (WebScrap.failStop env.quitFails s2 PyErr.referenceError).1,
       (WebScrap.failStop env.quitFails s2 PyErr.referenceError).2) := by
    intro s2
    simp [WebScrap.back_to_main, hb]
  unfold WebScrap.readPhase
  split
  · intro h; simp at h
  · split
    · intro h; simp at h
    · split
      · next e3 s3 heq3 =>
        intro h
        rw [hbm _] at heq3
        rw [Prod.mk.injEq] at heq3
        refine ⟨⟨e3, rfl⟩, ?_⟩
        rw [← heq3.2]
        exact failStop_spec env.quitFails _ PyErr.referenceError
      · next s3 heq3 =>
        intro h
        rw [hbm _] at heq3
        simp at heq3

theorem run_eq_present (env : WebScrap.DriverEnv) (s0 : Session)
    (hp : env.path7Present = true) :
    WebScrap.run env s0 = WebScrap.readPhase env { s0 with loggedIn := true } := by
  simp [WebScrap.run, hp]

theorem run_eq_absent_fail (env : WebScrap.DriverEnv) (s0 : Session)
    (hp : env.path7Present = false) (e : PyErr) (s2 : Session)
    (hA : WebScrap.authPhase env { s0 with loggedIn := false } =
      (some e, [Event.authStart], s2)) :
    WebScrap.run env s0 = ⟨Except.error e, [Event.authStart], s2⟩ := by
  simp [WebScrap.run, hp, hA]

theorem run_eq_absent_ok (env : WebScrap.DriverEnv) (s0 : Session)
    (hp : env.path7Present = false)
    (hA : WebScrap.authPhase env { s0 with loggedIn := false } =
      (none, [Event.authStart, Event.authDone],
       { { s0 with loggedIn := false } with loggedIn := true })) :
    (WebScrap.run env s0).outcome =
      (WebScrap.readPhase env { s0 with loggedIn := true }).outcome ∧
    (WebScrap.run env s0).trace = [Event.authStart, Event.authDone] ++
      (WebScrap.readPhase env { s0 with loggedIn := true }).trace ∧
    (WebScrap.run env s0).sess =
      (WebScrap.readPhase env { s0 with loggedIn := true }).sess := by
  have hs : ({ { s0 with loggedIn := false } with loggedIn := true } : Session) =
      { s0 with loggedIn := true } := rfl
  rw [hs] at hA
  constructor
  · simp [WebScrap.run, hp, hA]
  constructor
  · simp [WebScrap.run, hp, hA]
  · simp [WebScrap.run, hp, hA]

/-- Claim C6: the login-and-navigate sub-flow runs exactly when the home
    marker path7 is absent at the start of run: with the marker present it
    is skipped entirely, and with the marker absent it completes before the
    first read step, which only executes when authentication succeeded. -/
theorem run_auth_gating (env : WebScrap.DriverEnv) (s0 : Session) :
    (env.path7Present = true → Event.authStart ∉ (WebScrap.run env s0).trace) ∧
    (env.path7Present = false →
      Event.authStart ∈ (WebScrap.run env s0).trace ∧
      (Event.readStatusStart ∈ (WebScrap.run env s0).trace →
        ∃ rest, (WebScrap.run env s0).trace =
          Event.authStart :: Event.authDone :: Event.readStatusStart :: rest)) := by
  constructor
  · intro hp
    rw [run_eq_present env s0 hp]
    exact readPhase_no_auth env _
  · intro hp
    rcases authPhase_cases env { s0 with loggedIn := false } with ⟨e, s2, hA, hL⟩ | hA
    · rw [run_eq_absent_fail env s0 hp e s2 hA]
      refine ⟨by simp, ?_⟩
      intro hmem
      simp at hmem
    · have hrun := run_eq_absent_ok env s0 hp hA
      obtain ⟨tl, htl⟩ := readPhase_head env { s0 with loggedIn := true }
      rw [hrun.2.1, htl]
      refine ⟨by simp, ?_⟩
      intro hmem
      exact ⟨tl, by simp⟩

/-- Witness for claim C6: with the home marker present the auth sub-flow is
    skipped, and with it absent the trace begins with the completed auth
    sub-flow followed by the first read step. -/
theorem run_auth_gating_witness :
    Event.authStart ∉ (WebScrap.run envOK sInit).trace ∧
    (∃ rest, (WebScrap.run { envOK with path7Present := false } sInit).trace =
      Event.authStart :: Event.authDone :: Event.readStatusStart :: rest) := by
  constructor
  · exact (run_auth_gating envOK sInit).1 rfl
  · exact ((run_auth_gating { envOK with path7Present := false } sInit).2 rfl).2
      (by decide)

/-- Claim C3 counterexample: in a cycle where everything succeeds until the
    back control of the parameters page, which is absent, run raises
    ReferenceError instead of merely marking the session unauthenticated,
    and the home page is never confirmed. -/
theorem run_back_missing_raises :
    (WebScrap.run envNoBack sInit).outcome = Except.error PyErr.referenceError ∧
    Event.backStart ∈ (WebScrap.run envNoBack sInit).trace ∧
    Event.homeConfirmed ∉ (WebScrap.run envNoBack sInit).trace := by
  exact ⟨rfl, by decide, by decide⟩

/-- Claim C3 (amended): run confirms the return to the home page only on
    the success path, and the back control is a hard target: when it is
    missing or non-interactable and the back step is reached, the driver is
    stopped, the session is marked unauthenticated, and an exception
    aborts the cycle. -/
theorem run_home_only_on_success (env : WebScrap.DriverEnv) (s0 : Session) :
    (∀ v, (WebScrap.run env s0).outcome = Except.ok v →
      Event.homeConfirmed ∈ (WebScrap.run env s0).trace) ∧
    ((env.backFound && env.backInteractable) = false →
      Event.backStart ∈ (WebScrap.run env s0).trace →
      (∃ e, (WebScrap.run env s0).outcome = Except.error e) ∧
      (WebScrap.run env s0).sess.loggedIn = false) := by
  by_cases hp : env.path7Present = true
  · rw [run_eq_present env s0 hp]
    exact ⟨fun v hv => readPhase_ok_home env _ v hv,
      fun hb hmem => readPhase_back_fail env _ hb hmem⟩
  · have hp2 : env.path7Present = false := by simpa using hp
    rcases authPhase_cases env { s0 with loggedIn := false } with ⟨e, s2, hA, hL⟩ | hA
    · rw [run_eq_absent_fail env s0 hp2 e s2 hA]
      constructor
      · intro v hv
        simp at hv
      · intro hb hmem
        simp at hmem
    · have hrun := run_eq_absent_ok env s0 hp2 hA
      constructor
      · intro v hv
        rw [hrun.1] at hv
        rw [hrun.2.1]
        simp only [List.mem_append]
        right
        exact readPhase_ok_home env _ v hv
      · intro hb hmem
        rw [hrun.2.1] at hmem
        rcases List.mem_append.mp hmem with hin | hin
        · simp at hin
        · have hres := readPhase_back_fail env _ hb hin
          rw [hrun.1, hrun.2.2]
          exact hres

/-- Witness for the amended claim C3: the successful cycle confirms the
    home page, and the absent back control aborts with the session marked
    unauthenticated. -/
theorem run_home_only_on_success_witness :
    Event.homeConfirmed ∈ (WebScrap.run envOK sInit).trace ∧
    (∃ e, (WebScrap.run envNoBack sInit).outcome = Except.error e) ∧
    (WebScrap.run envNoBack sInit).sess.loggedIn = false := by
  refine ⟨?_, ?_⟩
  · exact (run_home_only_on_success envOK sInit).1 _ (by rfl)
  · exact (run_home_only_on_success envNoBack sInit).2 (by rfl) (by decide)
